import Mathlib

/-!
Shallow embedding of the authentication and token-lifecycle core of the
`boilerplate-gin-dat` repository (`internal/app/services/auth_service.go`,
`internal/domain/repositories` user repository, and the
`AuthController.ForgotPassword` handler).

Conventions of the embedding:
* the relational store is a `List User`; GORM lookups become `List.find?`
  over the relevant column, `Save` becomes an id-keyed overwrite;
* wall-clock time is an explicit `Int` parameter (Unix seconds);
* the cryptographically random byte draws of `crypto/rand` are explicit
  `List Nat` entropy parameters (each entry one byte);
* bcrypt (external library `golang.org/x/crypto/bcrypt`) is modelled
  abstractly: a hash value is determined by the per-call random salt and
  the input password, and `CompareHashAndPassword` succeeds exactly when
  the password matches the material the hash commits to;
* JWTs (external library `github.com/golang-jwt/jwt/v5`) are modelled as
  structured values: a well-formed token carries its algorithm, claim set
  and the key its HMAC signature was produced with (ideal-MAC model);
  arbitrary non-JWT strings are the `malformed` case.
-/

namespace BoilerplateGin

/-- Abstract model of a bcrypt hash (`bcrypt.GenerateFromPassword` output):
the value is determined by the per-call random salt and the hashed
password material; the concrete byte encoding is irrelevant to the claims. -/
structure HashedPassword where
  salt : Nat
  material : String
deriving DecidableEq

/-- `AuthService.hashPassword`: bcrypt-hash a plaintext password with the
per-call random salt drawn by the library. -/
def hashPassword (salt : Nat) (password : String) : HashedPassword :=
  { salt := salt, material := password }

/-- `AuthService.verifyPassword`: `bcrypt.CompareHashAndPassword` succeeds
(returns nil) exactly when the plaintext matches the hash's material. -/
def verifyPassword (hashed : HashedPassword) (password : String) : Bool :=
  hashed.material == password

/-- JWT signing algorithms that occur in the claims: the HMAC scheme the
service uses, the "none" algorithm, and a representative non-HMAC scheme. -/
inductive JwtAlg
  | hs256
  | noAlg
  | rs256
deriving DecidableEq

/-- The claim set `generateToken` builds (`user_id`, `email`, `exp`, `iat`);
`userId = none` models a token whose `user_id` claim is missing or not a
number. -/
structure JwtClaims where
  userId : Option Nat
  email : String
  exp : Option Int
  iat : Option Int
deriving DecidableEq

/-- A structurally well-formed JWT: algorithm header, claim set, and the
key its signature was produced with (ideal-MAC model: a signature verifies
under a key exactly when it was produced with that key over this token). -/
structure SignedToken where
  alg : JwtAlg
  claims : JwtClaims
  sigKey : String
deriving DecidableEq

/-- Input to `ValidateToken`: either a string that does not parse as a JWT
at all, or a well-formed token. -/
inductive JwtInput
  | malformed (raw : String)
  | wellFormed (t : SignedToken)
deriving DecidableEq

/-- The distinct failure causes of `jwt.Parse` as invoked by
`ValidateToken` (each surfaces as a differently-worded error in Go). -/
inductive ParseFailure
  | notAToken
  | unexpectedSigningMethod (alg : JwtAlg)
  | signatureInvalid
  | tokenExpired
deriving DecidableEq

/-- The distinct errors `ValidateToken` returns: missing secret, a wrapped
parse failure (`"failed to parse token: %w"`), or the
`"invalid user_id in token"` error for a missing/non-numeric claim. -/
inductive ValidateErr
  | secretNotConfigured
  | parseFailed (cause : ParseFailure)
  | invalidUserIdClaim
deriving DecidableEq

/-- Model of `jwt.Parse` with the keyfunc used by `ValidateToken`:
reject non-HMAC algorithms, verify the HMAC signature against `secret`,
then validate the registered `exp` claim (valid iff `now < exp`). -/
def jwtParse (secret : String) (now : Int) : JwtInput → Except ParseFailure SignedToken
  | .malformed _ => .error .notAToken
  | .wellFormed t =>
    if t.alg ≠ JwtAlg.hs256 then .error (.unexpectedSigningMethod t.alg)
    else if t.sigKey ≠ secret then .error .signatureInvalid
    else
      match t.claims.exp with
      | some e => if now < e then .ok t else .error .tokenExpired
      | none => .ok t

/-- `AuthService.ValidateToken`: read the secret from config (error when
unconfigured), parse/verify the token, then extract the `user_id` claim. -/
def ValidateToken (secret : String) (now : Int) (input : JwtInput) : Except ValidateErr Nat :=
  if secret = "" then .error .secretNotConfigured
  else
    match jwtParse secret now input with
    | .error e => .error (.parseFailed e)
    | .ok t =>
      match t.claims.userId with
      | some uid => .ok uid
      | none => .error .invalidUserIdClaim

/-- The persisted `models.User` row (claim-relevant columns). -/
structure User where
  id : Nat
  name : String
  email : String
  password : HashedPassword
  refreshToken : String
  passwordResetToken : String
  passwordResetExpiry : Option Int
deriving DecidableEq

/-- `AuthService.generateToken`: build the HS256 claim set
(`user_id`, `email`, `exp = now + 24h`, `iat = now`) and sign it with the
configured secret; error when the secret is unconfigured. -/
def generateToken (secret : String) (now : Int) (user : User) : Except String SignedToken :=
  if secret = "" then .error "JWT secret not configured"
  else
    .ok { alg := JwtAlg.hs256,
          claims := { userId := some user.id, email := user.email,
                      exp := some (now + 24 * 3600), iat := some now },
          sigKey := secret }

/-- One hex digit of `encoding/hex` (lowercase). -/
def hexDigit (n : Nat) : Char :=
  if n < 10 then Char.ofNat (48 + n) else Char.ofNat (87 + n)

/-- The character list of `hex.EncodeToString`: high nibble then low
nibble of each byte. -/
def hexEncodeChars : List Nat → List Char
  | [] => []
  | b :: bs => hexDigit (b / 16) :: hexDigit (b % 16) :: hexEncodeChars bs

/-- `hex.EncodeToString`: lowercase hex encoding of a byte list. -/
def hexEncode (bytes : List Nat) : String :=
  String.mk (hexEncodeChars bytes)

/-- `AuthService.generateRefreshToken`: hex-encode 32 random bytes drawn
from `crypto/rand` (the draw is the explicit `entropy` parameter). -/
def generateRefreshToken (entropy : List Nat) : String :=
  hexEncode entropy

/-- `AuthService.generatePasswordResetToken`: identical generation
primitive to refresh tokens. -/
def generatePasswordResetToken (entropy : List Nat) : String :=
  hexEncode entropy

/-- A character is a lowercase hexadecimal digit. -/
def isHexChar (c : Char) : Bool :=
  (48 ≤ c.toNat && c.toNat ≤ 57) || (97 ≤ c.toNat && c.toNat ≤ 102)

namespace repositories

/-- `repositories.GetUserByEmail`: first row whose email column matches;
`none` when absent (GORM record-not-found is mapped to `nil, nil`). -/
def GetUserByEmail (db : List User) (email : String) : Option User :=
  db.find? (fun u => u.email == email)

/-- Modelled from the spec: `repositories.GetUserByRefreshToken` is not in
the sources (only its callers and tests are); per the spec, refresh-token
validity is solely "does a user currently hold this exact token string",
so the lookup returns the user whose refresh-token column equals the
presented string, `none` when no user holds it. -/
def GetUserByRefreshToken (db : List User) (token : String) : Option User :=
  db.find? (fun u => u.refreshToken == token)

/-- Modelled from the spec: `repositories.GetUserByPasswordResetToken` is
not in the sources (only its callers and tests are); per the spec, the
lookup returns the user currently holding this exact reset-token string,
`none` when no user holds it. -/
def GetUserByPasswordResetToken (db : List User) (token : String) : Option User :=
  db.find? (fun u => u.passwordResetToken == token)

/-- Next primary key assigned by the store on `CreateUser`. -/
def nextId (db : List User) : Nat :=
  (db.map User.id).foldr Nat.max 0 + 1

/-- `repositories.CreateUser`: insert the row, with the store assigning
the primary key. -/
def CreateUser (db : List User) (user : User) : List User × User :=
  let created := { user with id := nextId db }
  (db ++ [created], created)

/-- `repositories.UpdateUser` (GORM `Save`): overwrite the row with the
matching primary key. -/
def UpdateUser (db : List User) (user : User) : List User :=
  db.map (fun v => if v.id = user.id then user else v)

end repositories

/-- The classified errors of `AuthService` (sentinel errors plus wrapped
internal failures carrying their operation context). -/
inductive AuthError
  | emailAlreadyExists
  | invalidCredentials
  | userNotFound
  | invalidRefreshToken
  | invalidResetToken
  | resetTokenExpired
  | internalError (msg : String)
deriving DecidableEq

/-- `dto.UserResponse`. -/
structure UserResponse where
  id : Nat
  name : String
  email : String
deriving DecidableEq

/-- `dto.AuthResponse`. -/
structure AuthResponse where
  user : UserResponse
  accessToken : SignedToken
  refreshToken : String
  tokenType : String
deriving DecidableEq

/-- `dto.RefreshTokenResponse`. -/
structure RefreshTokenResponse where
  accessToken : SignedToken
  refreshToken : String
  tokenType : String
deriving DecidableEq

namespace AuthService

/-- `AuthService.Register`: check email uniqueness, hash the password,
persist the user, issue an access token, then generate and persist a
refresh token. Every result is paired with the store state after the
call — a failure after `CreateUser` leaves the created row in place. -/
def Register (db : List User) (name email password : String)
    (salt : Nat) (entropy : List Nat) (secret : String) (now : Int) :
    Except AuthError AuthResponse × List User :=
  match repositories.GetUserByEmail db email with
  | some _ => (.error .emailAlreadyExists, db)
  | none =>
    let hashed := hashPassword salt password
    let user : User :=
      { id := 0, name := name, email := email, password := hashed,
        refreshToken := "", passwordResetToken := "", passwordResetExpiry := none }
    let created := (repositories.CreateUser db user).2
    let db1 := (repositories.CreateUser db user).1
    match generateToken secret now created with
    | .error e => (.error (.internalError ("failed to generate access token: " ++ e)), db1)
    | .ok accessToken =>
      let refreshTok := generateRefreshToken entropy
      let rotated := { created with refreshToken := refreshTok }
      (.ok { user := { id := created.id, name := created.name, email := created.email },
             accessToken := accessToken, refreshToken := refreshTok, tokenType := "Bearer" },
       repositories.UpdateUser db1 rotated)

/-- `AuthService.Login`: fetch by email (absent → `ErrInvalidCredentials`),
verify the password (mismatch → `ErrInvalidCredentials`), then issue and
persist fresh tokens. -/
def Login (db : List User) (email password : String)
    (entropy : List Nat) (secret : String) (now : Int) :
    Except AuthError AuthResponse × List User :=
  match repositories.GetUserByEmail db email with
  | none => (.error .invalidCredentials, db)
  | some user =>
    if verifyPassword user.password password then
      match generateToken secret now user with
      | .error e => (.error (.internalError ("failed to generate access token: " ++ e)), db)
      | .ok accessToken =>
        let refreshTok := generateRefreshToken entropy
        let rotated := { user with refreshToken := refreshTok }
        (.ok { user := { id := user.id, name := user.name, email := user.email },
               accessToken := accessToken, refreshToken := refreshTok, tokenType := "Bearer" },
         repositories.UpdateUser db rotated)
    else (.error .invalidCredentials, db)

/-- `AuthService.RefreshToken`: look the user up by the presented token
(absent → `ErrInvalidRefreshToken`), issue a new access token, then
generate a new refresh token and overwrite the stored one (rotation). -/
def RefreshToken (db : List User) (presented : String)
    (entropy : List Nat) (secret : String) (now : Int) :
    Except AuthError RefreshTokenResponse × List User :=
  match repositories.GetUserByRefreshToken db presented with
  | none => (.error .invalidRefreshToken, db)
  | some user =>
    match generateToken secret now user with
    | .error e => (.error (.internalError ("failed to generate new access token: " ++ e)), db)
    | .ok accessToken =>
      let newRefreshTok := generateRefreshToken entropy
      let rotated := { user with refreshToken := newRefreshTok }
      (.ok { accessToken := accessToken, refreshToken := newRefreshTok, tokenType := "Bearer" },
       repositories.UpdateUser db rotated)

/-- `AuthService.ForgotPassword`: fetch by email (absent →
`ErrUserNotFound`), generate a reset token, set the expiry to
now + 15 minutes (in seconds), persist both fields, return the token. -/
def ForgotPassword (db : List User) (email : String)
    (entropy : List Nat) (now : Int) :
    Except AuthError String × List User :=
  match repositories.GetUserByEmail db email with
  | none => (.error .userNotFound, db)
  | some user =>
    let resetToken := generatePasswordResetToken entropy
    let updated :=
      { user with passwordResetToken := resetToken,
                  passwordResetExpiry := some (now + 15 * 60) }
    (.ok resetToken, repositories.UpdateUser db updated)

/-- `AuthService.ResetPassword`: look the user up by reset token (absent →
`ErrInvalidResetToken`), fail with `ErrResetTokenExpired` when the stored
expiry is nil or `time.Now().After(expiry)` (strictly past), otherwise
hash the new password, overwrite it and clear both reset fields. -/
def ResetPassword (db : List User) (token newPassword : String)
    (salt : Nat) (now : Int) :
    Except AuthError Unit × List User :=
  match repositories.GetUserByPasswordResetToken db token with
  | none => (.error .invalidResetToken, db)
  | some user =>
    match user.passwordResetExpiry with
    | none => (.error .resetTokenExpired, db)
    | some expiry =>
      if expiry < now then (.error .resetTokenExpired, db)
      else
        let updated :=
          { user with password := hashPassword salt newPassword,
                      passwordResetToken := "", passwordResetExpiry := none }
        (.ok (), repositories.UpdateUser db updated)

end AuthService

/-- The shape of a JSON body the `pkg/utils` response helpers emit for the
forgot-password endpoint: `data` is absent, a message object, a message
object with the reset token, or error details. -/
inductive RespData
  | noData
  | resetMessage (msg : String)
  | resetMessageWithToken (msg token : String)
  | errorInfo (msg : String)
deriving DecidableEq

/-- An HTTP response of the controller layer: status code plus the
standard `{success, message, data}` envelope. -/
structure HttpResponse where
  status : Nat
  success : Bool
  message : String
  data : RespData
deriving DecidableEq

namespace AuthController

/-- `AuthController.ForgotPassword` (handler body after request binding):
call the service; mask `ErrUserNotFound` as a 200 success with its own
message and no data; other errors → 500; on success → 200 with a message
object (plus the token itself outside production builds). -/
def ForgotPassword (db : List User) (email : String) (entropy : List Nat)
    (now : Int) (isProduction : Bool) : HttpResponse × List User :=
  let r := AuthService.ForgotPassword db email entropy now
  match r.1 with
  | .error .userNotFound =>
    ({ status := 200, success := true,
       message := "If the email exists, a password reset link has been sent",
       data := RespData.noData }, r.2)
  | .error _ =>
    ({ status := 500, success := false, message := "Failed to process request",
       data := RespData.errorInfo "failed to process request" }, r.2)
  | .ok resetToken =>
    if isProduction then
      ({ status := 200, success := true, message := "Password reset initiated",
         data := RespData.resetMessage "Password reset instructions sent to email" }, r.2)
    else
      ({ status := 200, success := true, message := "Password reset initiated",
         data := RespData.resetMessageWithToken
           "Password reset instructions sent to email" resetToken }, r.2)

end AuthController

/-- A sample credential-store row used to evaluate the operations on
concrete inputs. -/
def sampleUser : User :=
  { id := 1, name := "John Doe", email := "john@example.com",
    password := hashPassword 7 "SecurePass123!", refreshToken := "reftok",
    passwordResetToken := "resettok", passwordResetExpiry := some 1000 }

/-- A one-row sample store. -/
def sampleDb : List User := [sampleUser]

/-- A concrete 32-byte entropy draw (all zero bytes). -/
def sampleEntropy : List Nat := List.replicate 32 0

/-- A second concrete 32-byte entropy draw. -/
def sampleEntropy2 : List Nat := 1 :: List.replicate 31 0

/-- The response body of the forgot-password endpoint for the sample
store's own email, in a production build. -/
def forgotExistingResp : HttpResponse :=
  (AuthController.ForgotPassword sampleDb "john@example.com" sampleEntropy 0 true).1

/-- The response body of the forgot-password endpoint for an email absent
from the sample store, in a production build. -/
def forgotMissingResp : HttpResponse :=
  (AuthController.ForgotPassword sampleDb "nosuch@example.com" sampleEntropy 0 true).1

/-! Helper lemmas about the embedded store operations. -/

/-- Characterise membership in a store after `UpdateUser`. -/
theorem mem_UpdateUser {db : List User} {u v : User}
    (h : v ∈ repositories.UpdateUser db u) :
    ∃ w ∈ db, v = if w.id = u.id then u else w := by
  rcases List.mem_map.mp h with ⟨w, hw, hv⟩
  exact ⟨w, hw, hv.symm⟩

/-- The updated row is in the store after `UpdateUser` whenever a row with
its id was. -/
theorem updated_mem_UpdateUser {db : List User} {u w : User}
    (hw : w ∈ db) (hid : w.id = u.id) : u ∈ repositories.UpdateUser db u := by
  refine List.mem_map.mpr ⟨w, hw, ?_⟩
  simp [hid]

/-- `find?` over an append when the first part has no hit. -/
theorem find?_append_of_none {α : Type} {p : α → Bool} {l1 l2 : List α}
    (h : l1.find? p = none) : (l1 ++ l2).find? p = l2.find? p := by
  rw [List.find?_append, h, Option.none_or]

/-- The two hex digits of a byte are hexadecimal characters. -/
theorem isHexChar_hexDigit {n : Nat} (h : n < 16) : isHexChar (hexDigit n) = true := by
  have hall : ∀ m < 16, isHexChar (hexDigit m) = true := by decide
  exact hall n h

/-- Length of the hex character encoding. -/
theorem hexEncodeChars_length (bs : List Nat) :
    (hexEncodeChars bs).length = 2 * bs.length := by
  induction bs with
  | nil => rfl
  | cons b bs ih =>
    simp only [hexEncodeChars, List.length_cons, ih]
    omega

/-- Every character of the hex encoding of bytes is a hex character. -/
theorem hexEncodeChars_hex {bs : List Nat} (hb : ∀ b ∈ bs, b < 256) :
    ∀ c ∈ hexEncodeChars bs, isHexChar c = true := by
  induction bs with
  | nil => intro c hc; cases hc
  | cons b bs ih =>
    intro c hc
    have hblt : b < 256 := hb b (by simp)
    rcases hc with _ | ⟨_, hc⟩
    · exact isHexChar_hexDigit (by omega)
    · rcases hc with _ | ⟨_, hc⟩
      · exact isHexChar_hexDigit (Nat.mod_lt _ (by omega))
      · exact ih (fun x hx => hb x (by simp [hx])) c hc

/-- After overwriting the matching row with one whose reset-token field is
cleared, no row holds the old reset token (given it was uniquely held). -/
theorem resetToken_lookup_after_clear (db : List User) (u upd : User) (T : String)
    (hT : T ≠ "") (hupd_tok : upd.passwordResetToken = "") (hupd_id : upd.id = u.id)
    (huniq : ∀ v ∈ db, v.passwordResetToken = T → v.id = u.id) :
    repositories.GetUserByPasswordResetToken (repositories.UpdateUser db upd) T = none := by
  apply List.find?_eq_none.mpr
  intro v hv
  rcases mem_UpdateUser hv with ⟨w, hw, hveq⟩
  subst hveq
  by_cases hid : w.id = upd.id
  · simp only [if_pos hid, beq_iff_eq, hupd_tok]
    exact fun hEq => hT hEq.symm
  · simp only [if_neg hid, beq_iff_eq]
    intro hMatch
    exact hid ((huniq w hw hMatch).trans hupd_id.symm)

/-- After rotating the matching row's refresh token to a fresh value, no
row holds the old refresh token (given it was uniquely held). -/
theorem refreshToken_lookup_after_rotate (db : List User) (u upd : User) (T : String)
    (hfresh : upd.refreshToken ≠ T) (hupd_id : upd.id = u.id)
    (huniq : ∀ v ∈ db, v.refreshToken = T → v.id = u.id) :
    repositories.GetUserByRefreshToken (repositories.UpdateUser db upd) T = none := by
  apply List.find?_eq_none.mpr
  intro v hv
  rcases mem_UpdateUser hv with ⟨w, hw, hveq⟩
  subst hveq
  by_cases hid : w.id = upd.id
  · simp only [if_pos hid, beq_iff_eq]
    exact hfresh
  · simp only [if_neg hid, beq_iff_eq]
    intro hMatch
    exact hid ((huniq w hw hMatch).trans hupd_id.symm)

/-! Claim theorems. -/

/-- Claim C7: for all plaintext passwords P, `Verify(Hash(P), P)` succeeds,
`Verify(Hash(P), P + "x")` fails, and two calls to `Hash(P)` — which draw
distinct per-call salts — never produce identical output. -/
theorem hash_verify_roundtrip (salt s1 s2 : Nat) (P : String) (hsalt : s1 ≠ s2) :
    verifyPassword (hashPassword salt P) P = true ∧
    verifyPassword (hashPassword salt P) (P ++ "x") = false ∧
    hashPassword s1 P ≠ hashPassword s2 P := by
  refine ⟨by simp [verifyPassword, hashPassword], ?_, ?_⟩
  · simp only [verifyPassword, hashPassword, beq_eq_false_iff_ne, ne_eq]
    intro h
    have hlen := congrArg String.length h
    rw [String.length_append] at hlen
    have hx : "x".length = 1 := rfl
    omega
  · intro h
    exact hsalt (congrArg HashedPassword.salt h)

/-- Claim C7 witness: the round-trip properties evaluated at the concrete
password "SecurePass123!" and salts 0 and 1. -/
theorem hash_verify_roundtrip_witness :
    verifyPassword (hashPassword 0 "SecurePass123!") "SecurePass123!" = true ∧
    verifyPassword (hashPassword 0 "SecurePass123!") ("SecurePass123!" ++ "x") = false ∧
    hashPassword 0 "SecurePass123!" ≠ hashPassword 1 "SecurePass123!" :=
  hash_verify_roundtrip 0 0 1 "SecurePass123!" (by decide)

/-- Claim C5 counterexample: `ValidateToken` does not return one generic
error for every failure mode — a malformed token and a well-signed token
lacking the `user_id` claim yield different error values (mirroring the
distinct Go error messages "failed to parse token: …" and
"invalid user_id in token"). -/
theorem validateToken_errors_distinguishable :
    ValidateToken "secret" 0 (JwtInput.malformed "garbage")
      = .error (.parseFailed .notAToken) ∧
    ValidateToken "secret" 0
      (JwtInput.wellFormed
        { alg := JwtAlg.hs256,
          claims := { userId := none, email := "a@b.c", exp := some 100, iat := some 0 },
          sigKey := "secret" })
      = .error .invalidUserIdClaim ∧
    ValidateErr.parseFailed .notAToken ≠ ValidateErr.invalidUserIdClaim :=
  ⟨rfl, rfl, by decide⟩

/-- Claim C5 amended: `ValidateToken` returns an error on every failure
mode — malformed input, wrong signature, wrong signing algorithm, expired
token, missing user-id claim — but the error values are mode-specific
(wrapped parse failures with distinct causes, and a distinct
"invalid user_id in token" error), not one generic "invalid token" value. -/
theorem validateToken_fails_every_mode (secret wrongKey raw : String) (now e : Int)
    (cl1 cl2 cl3 : JwtClaims) (em : String) (ex : Option Int) (ia : Option Int)
    (hsec : secret ≠ "") (hw : wrongKey ≠ secret)
    (hexp : cl3.exp = some e) (he : e ≤ now)
    (hlive : ex = none ∨ ∃ e2, ex = some e2 ∧ now < e2) :
    ValidateToken secret now (.malformed raw) = .error (.parseFailed .notAToken) ∧
    ValidateToken secret now
        (.wellFormed { alg := JwtAlg.hs256, claims := cl1, sigKey := wrongKey })
      = .error (.parseFailed .signatureInvalid) ∧
    ValidateToken secret now
        (.wellFormed { alg := JwtAlg.noAlg, claims := cl2, sigKey := secret })
      = .error (.parseFailed (.unexpectedSigningMethod JwtAlg.noAlg)) ∧
    ValidateToken secret now
        (.wellFormed { alg := JwtAlg.hs256, claims := cl3, sigKey := secret })
      = .error (.parseFailed .tokenExpired) ∧
    ValidateToken secret now
        (.wellFormed { alg := JwtAlg.hs256,
                       claims := { userId := none, email := em, exp := ex, iat := ia },
                       sigKey := secret })
      = .error .invalidUserIdClaim := by
  refine ⟨?_, ?_, ?_, ?_, ?_⟩
  · simp [ValidateToken, jwtParse, hsec]
  · simp [ValidateToken, jwtParse, hsec, hw]
  · simp [ValidateToken, jwtParse, hsec]
  · simp [ValidateToken, jwtParse, hsec, hexp, not_lt.mpr he]
  · rcases hlive with hnone | ⟨e2, hsome, hlt⟩
    · simp [ValidateToken, jwtParse, hsec, hnone]
    · simp [ValidateToken, jwtParse, hsec, hsome, hlt]

/-- Claim C5 amended witness: the five failure modes evaluated on concrete
tokens under the secret "s". -/
theorem validateToken_fails_every_mode_witness :
    ValidateToken "s" 50 (.malformed "zzz") = .error (.parseFailed .notAToken) ∧
    ValidateToken "s" 50
        (.wellFormed { alg := JwtAlg.hs256,
                       claims := { userId := some 1, email := "e", exp := some 100, iat := some 0 },
                       sigKey := "t" })
      = .error (.parseFailed .signatureInvalid) ∧
    ValidateToken "s" 50
        (.wellFormed { alg := JwtAlg.noAlg,
                       claims := { userId := some 1, email := "e", exp := some 100, iat := some 0 },
                       sigKey := "s" })
      = .error (.parseFailed (.unexpectedSigningMethod JwtAlg.noAlg)) ∧
    ValidateToken "s" 50
        (.wellFormed { alg := JwtAlg.hs256,
                       claims := { userId := some 1, email := "e", exp := some 40, iat := some 0 },
                       sigKey := "s" })
      = .error (.parseFailed .tokenExpired) ∧
    ValidateToken "s" 50
        (.wellFormed { alg := JwtAlg.hs256,
                       claims := { userId := none, email := "e", exp := some 100, iat := some 0 },
                       sigKey := "s" })
      = .error .invalidUserIdClaim :=
  validateToken_fails_every_mode "s" "t" "zzz" 50 40
    { userId := some 1, email := "e", exp := some 100, iat := some 0 }
    { userId := some 1, email := "e", exp := some 100, iat := some 0 }
    { userId := some 1, email := "e", exp := some 40, iat := some 0 }
    "e" (some 100) (some 0)
    (by decide) (by decide) rfl (by decide)
    (Or.inr ⟨100, rfl, by decide⟩)

/-- Claim C6: a token freshly produced by `generateToken` passes
`ValidateToken` and yields the original user id, while a token signed with
a different secret, a token using algorithm "none", and a token whose
expiry is in the past all fail. -/
theorem issue_validate_roundtrip (secret wrongKey : String) (now : Int) (user : User)
    (cl1 cl2 : JwtClaims) (e : Int)
    (hsec : secret ≠ "") (hw : wrongKey ≠ secret)
    (hexp : cl2.exp = some e) (he : e < now) :
    (∃ t, generateToken secret now user = .ok t ∧
          ValidateToken secret now (.wellFormed t) = .ok user.id) ∧
    ValidateToken secret now
        (.wellFormed { alg := JwtAlg.hs256, claims := cl1, sigKey := wrongKey })
      = .error (.parseFailed .signatureInvalid) ∧
    (∀ key cl, ValidateToken secret now
        (.wellFormed { alg := JwtAlg.noAlg, claims := cl, sigKey := key })
      = .error (.parseFailed (.unexpectedSigningMethod JwtAlg.noAlg))) ∧
    ValidateToken secret now
        (.wellFormed { alg := JwtAlg.hs256, claims := cl2, sigKey := secret })
      = .error (.parseFailed .tokenExpired) := by
  refine ⟨?_, ?_, ?_, ?_⟩
  · refine ⟨{ alg := JwtAlg.hs256,
              claims := { userId := some user.id, email := user.email,
                          exp := some (now + 24 * 3600), iat := some now },
              sigKey := secret }, ?_, ?_⟩
    · simp [generateToken, hsec]
    · have hlt : now < now + 24 * 3600 := by omega
      simp [ValidateToken, jwtParse, hsec, hlt]
  · simp [ValidateToken, jwtParse, hsec, hw]
  · intro key cl
    simp [ValidateToken, jwtParse, hsec]
  · have hnlt : ¬ now < e := by omega
    simp [ValidateToken, jwtParse, hsec, hexp, hnlt]

/-- Claim C6 witness: the round trip evaluated for the sample user under
secret "s" at time 0, together with the three concrete rejections. -/
theorem issue_validate_roundtrip_witness :
    (∃ t, generateToken "s" 0 sampleUser = .ok t ∧
          ValidateToken "s" 0 (.wellFormed t) = .ok sampleUser.id) ∧
    ValidateToken "s" 0
        (.wellFormed { alg := JwtAlg.hs256,
                       claims := { userId := some 1, email := "e", exp := some 100, iat := some 0 },
                       sigKey := "t" })
      = .error (.parseFailed .signatureInvalid) ∧
    (∀ key cl, ValidateToken "s" 0
        (.wellFormed { alg := JwtAlg.noAlg, claims := cl, sigKey := key })
      = .error (.parseFailed (.unexpectedSigningMethod JwtAlg.noAlg))) ∧
    ValidateToken "s" 0
        (.wellFormed { alg := JwtAlg.hs256,
                       claims := { userId := some 1, email := "e", exp := some (-5), iat := some 0 },
                       sigKey := "s" })
      = .error (.parseFailed .tokenExpired) :=
  issue_validate_roundtrip "s" "t" 0 sampleUser
    { userId := some 1, email := "e", exp := some 100, iat := some 0 }
    { userId := some 1, email := "e", exp := some (-5), iat := some 0 }
    (-5) (by decide) (by decide) rfl (by decide)

/-- Claim C4 counterexample: in the sample store the pending reset token
"resettok" has stored expiry 1000; at current time exactly 1000 the code's
check `time.Now().After(expiry)` is strict, so `ResetPassword` succeeds
instead of failing with `ErrResetTokenExpired`. -/
theorem resetPassword_at_exact_expiry_succeeds :
    (AuthService.ResetPassword sampleDb "resettok" "NewPass456!" 3 1000).1 = .ok () ∧
    (AuthService.ResetPassword sampleDb "resettok" "NewPass456!" 3 1000).1
      ≠ .error .resetTokenExpired := by
  constructor
  · rfl
  · rw [show (AuthService.ResetPassword sampleDb "resettok" "NewPass456!" 3 1000).1
        = .ok () from rfl]
    exact fun h => Except.noConfusion h

/-- Claim C4 amended: for a user with a pending reset token,
`ResetPassword` fails with `ErrResetTokenExpired` exactly when the stored
expiry is strictly in the past (now strictly after expiry); when the
current time is at or before the stored expiry — in particular at exactly
the expiry instant, and one minute before it — the reset succeeds. -/
theorem resetPassword_expiry_boundary (db : List User) (T newPw : String) (salt : Nat)
    (now e : Int) (u : User)
    (hfind : repositories.GetUserByPasswordResetToken db T = some u)
    (hexp : u.passwordResetExpiry = some e) :
    (e < now → (AuthService.ResetPassword db T newPw salt now).1
        = .error .resetTokenExpired) ∧
    (now ≤ e → (AuthService.ResetPassword db T newPw salt now).1 = .ok ()) ∧
    (AuthService.ResetPassword db T newPw salt (e - 60)).1 = .ok () := by
  refine ⟨?_, ?_, ?_⟩
  · intro hpast
    simp [AuthService.ResetPassword, hfind, hexp, hpast]
  · intro hle
    simp [AuthService.ResetPassword, hfind, hexp, not_lt.mpr hle]
  · have hnlt : ¬ e < e - 60 := by omega
    simp [AuthService.ResetPassword, hfind, hexp, hnlt]

/-- Claim C4 amended witness: the boundary behaviour evaluated on the
sample store, whose reset token expires at time 1000. -/
theorem resetPassword_expiry_boundary_witness :
    ((1000 : Int) < 2000 → (AuthService.ResetPassword sampleDb "resettok" "NewPass456!" 3 2000).1
        = .error .resetTokenExpired) ∧
    ((2000 : Int) ≤ 1000 → (AuthService.ResetPassword sampleDb "resettok" "NewPass456!" 3 2000).1
        = .ok ()) ∧
    (AuthService.ResetPassword sampleDb "resettok" "NewPass456!" 3 (1000 - 60)).1 = .ok () :=
  resetPassword_expiry_boundary sampleDb "resettok" "NewPass456!" 3 2000 1000 sampleUser
    (by decide) rfl

/-- Claim C9: `Login` fails with `ErrInvalidCredentials` both when no user
holds the given email and when the user exists but the password does not
verify, and the two failures carry the same classified error. -/
theorem login_invalid_credentials_indistinguishable
    (db1 db2 : List User) (email1 email2 pw1 pw2 : String)
    (en1 en2 : List Nat) (s1 s2 : String) (n1 n2 : Int) (u : User)
    (habsent : repositories.GetUserByEmail db1 email1 = none)
    (hfound : repositories.GetUserByEmail db2 email2 = some u)
    (hbad : verifyPassword u.password pw2 = false) :
    (AuthService.Login db1 email1 pw1 en1 s1 n1).1 = .error .invalidCredentials ∧
    (AuthService.Login db2 email2 pw2 en2 s2 n2).1 = .error .invalidCredentials ∧
    (AuthService.Login db1 email1 pw1 en1 s1 n1).1
      = (AuthService.Login db2 email2 pw2 en2 s2 n2).1 := by
  have h1 : (AuthService.Login db1 email1 pw1 en1 s1 n1).1 = .error .invalidCredentials := by
    simp [AuthService.Login, habsent]
  have h2 : (AuthService.Login db2 email2 pw2 en2 s2 n2).1 = .error .invalidCredentials := by
    simp [AuthService.Login, hfound, hbad]
  exact ⟨h1, h2, h1.trans h2.symm⟩

/-- Claim C9 witness: unknown email versus known email with wrong
password, both against the sample store. -/
theorem login_invalid_credentials_indistinguishable_witness :
    (AuthService.Login sampleDb "nosuch@example.com" "whatever!" sampleEntropy "s" 0).1
      = .error .invalidCredentials ∧
    (AuthService.Login sampleDb "john@example.com" "WrongPass!" sampleEntropy "s" 0).1
      = .error .invalidCredentials ∧
    (AuthService.Login sampleDb "nosuch@example.com" "whatever!" sampleEntropy "s" 0).1
      = (AuthService.Login sampleDb "john@example.com" "WrongPass!" sampleEntropy "s" 0).1 :=
  login_invalid_credentials_indistinguishable sampleDb sampleDb
    "nosuch@example.com" "john@example.com" "whatever!" "WrongPass!"
    sampleEntropy sampleEntropy "s" "s" 0 0 sampleUser
    (by decide) (by decide) (by decide)

/-- Claim C8: for an existing user's email, `ForgotPassword` returns the
hex encoding of the 32 fresh random bytes — a 64-character hexadecimal
token — sets the user's reset expiry to exactly now + 15 minutes, and
persists both fields on the user record. -/
theorem forgotPassword_token_format_and_persistence
    (db : List User) (email : String) (entropy : List Nat) (now : Int) (u : User)
    (hfound : repositories.GetUserByEmail db email = some u)
    (hlen : entropy.length = 32) (hbytes : ∀ b ∈ entropy, b < 256) :
    ∃ tok, (AuthService.ForgotPassword db email entropy now).1 = .ok tok ∧
      tok = generatePasswordResetToken entropy ∧
      tok.length = 64 ∧ (∀ c ∈ tok.data, isHexChar c = true) ∧
      ∃ v ∈ (AuthService.ForgotPassword db email entropy now).2,
        v.id = u.id ∧ v.passwordResetToken = tok ∧
        v.passwordResetExpiry = some (now + 15 * 60) := by
  refine ⟨generatePasswordResetToken entropy, ?_, rfl, ?_, ?_, ?_⟩
  · simp [AuthService.ForgotPassword, hfound]
  · show (hexEncodeChars entropy).length = 64
    rw [hexEncodeChars_length, hlen]
  · exact hexEncodeChars_hex hbytes
  · have hupd :
        { u with passwordResetToken := generatePasswordResetToken entropy
                 passwordResetExpiry := some (now + 15 * 60) }
          ∈ (AuthService.ForgotPassword db email entropy now).2 := by
      simp only [AuthService.ForgotPassword, hfound]
      exact updated_mem_UpdateUser (List.mem_of_find?_eq_some hfound) rfl
    exact ⟨_, hupd, rfl, rfl, rfl⟩

/-- Claim C8 witness: `ForgotPassword` on the sample store with the
all-zero 32-byte draw at time 0. -/
theorem forgotPassword_token_format_and_persistence_witness :
    ∃ tok, (AuthService.ForgotPassword sampleDb "john@example.com" sampleEntropy 0).1 = .ok tok ∧
      tok = generatePasswordResetToken sampleEntropy ∧
      tok.length = 64 ∧ (∀ c ∈ tok.data, isHexChar c = true) ∧
      ∃ v ∈ (AuthService.ForgotPassword sampleDb "john@example.com" sampleEntropy 0).2,
        v.id = sampleUser.id ∧ v.passwordResetToken = tok ∧
        v.passwordResetExpiry = some (0 + 15 * 60) :=
  forgotPassword_token_format_and_persistence sampleDb "john@example.com" sampleEntropy 0
    sampleUser (by decide) (by decide) (by decide)

/-- Claim C2: a successful `ResetPassword` with pending token T overwrites
the password with the hash of the new plaintext, clears both reset fields,
and a second `ResetPassword` attempt with the same T fails with
`ErrInvalidResetToken`. -/
theorem resetPassword_single_use
    (db : List User) (T newPw newPw2 : String) (salt salt2 : Nat) (now now2 : Int)
    (e : Int) (u : User)
    (hfind : repositories.GetUserByPasswordResetToken db T = some u)
    (hexp : u.passwordResetExpiry = some e) (hvalid : ¬ e < now)
    (hT : T ≠ "")
    (huniq : ∀ v ∈ db, v.passwordResetToken = T → v.id = u.id) :
    (AuthService.ResetPassword db T newPw salt now).1 = .ok () ∧
    (∃ v ∈ (AuthService.ResetPassword db T newPw salt now).2,
       v.id = u.id ∧ v.password = hashPassword salt newPw ∧
       v.passwordResetToken = "" ∧ v.passwordResetExpiry = none) ∧
    (AuthService.ResetPassword (AuthService.ResetPassword db T newPw salt now).2
        T newPw2 salt2 now2).1 = .error .invalidResetToken := by
  have hdb2 : (AuthService.ResetPassword db T newPw salt now).2
      = repositories.UpdateUser db
          { u with password := hashPassword salt newPw
                   passwordResetToken := ""
                   passwordResetExpiry := none } := by
    simp [AuthService.ResetPassword, hfind, hexp, hvalid]
  refine ⟨?_, ?_, ?_⟩
  · simp [AuthService.ResetPassword, hfind, hexp, hvalid]
  · rw [hdb2]
    exact ⟨_, updated_mem_UpdateUser (List.mem_of_find?_eq_some hfind) rfl,
           rfl, rfl, rfl, rfl⟩
  · rw [hdb2]
    have hnone := resetToken_lookup_after_clear db u
        { u with password := hashPassword salt newPw
                 passwordResetToken := ""
                 passwordResetExpiry := none } T hT rfl rfl huniq
    simp [AuthService.ResetPassword, hnone]

/-- Claim C2 witness: reset with the sample store's pending token
"resettok" at time 500, then a second attempt with the same token. -/
theorem resetPassword_single_use_witness :
    (AuthService.ResetPassword sampleDb "resettok" "NewPass456!" 3 500).1 = .ok () ∧
    (∃ v ∈ (AuthService.ResetPassword sampleDb "resettok" "NewPass456!" 3 500).2,
       v.id = sampleUser.id ∧ v.password = hashPassword 3 "NewPass456!" ∧
       v.passwordResetToken = "" ∧ v.passwordResetExpiry = none) ∧
    (AuthService.ResetPassword (AuthService.ResetPassword sampleDb "resettok" "NewPass456!" 3 500).2
        "resettok" "OtherPass789!" 4 600).1 = .error .invalidResetToken :=
  resetPassword_single_use sampleDb "resettok" "NewPass456!" "OtherPass789!" 3 4 500 600
    1000 sampleUser (by decide) rfl (by decide) (by decide) (by decide)

/-- Claim C1: a successful `RefreshToken` exchange presenting token T
stores a freshly generated refresh token different from T on the user, and
a second exchange presenting the same T fails with
`ErrInvalidRefreshToken`. -/
theorem refreshToken_rotation_single_use
    (db : List User) (T : String) (entropy entropy2 : List Nat)
    (secret secret2 : String) (now now2 : Int) (u : User)
    (hfind : repositories.GetUserByRefreshToken db T = some u)
    (huniq : ∀ v ∈ db, v.refreshToken = T → v.id = u.id)
    (hsec : secret ≠ "")
    (hfresh : generateRefreshToken entropy ≠ T) :
    (∃ resp, (AuthService.RefreshToken db T entropy secret now).1 = .ok resp ∧
       resp.refreshToken = generateRefreshToken entropy ∧ resp.refreshToken ≠ T) ∧
    (∀ v ∈ (AuthService.RefreshToken db T entropy secret now).2,
       v.id = u.id → v.refreshToken = generateRefreshToken entropy) ∧
    (AuthService.RefreshToken (AuthService.RefreshToken db T entropy secret now).2
        T entropy2 secret2 now2).1 = .error .invalidRefreshToken := by
  have hdb2 : (AuthService.RefreshToken db T entropy secret now).2
      = repositories.UpdateUser db { u with refreshToken := generateRefreshToken entropy } := by
    simp [AuthService.RefreshToken, hfind, generateToken, hsec]
  refine ⟨?_, ?_, ?_⟩
  · refine ⟨{ accessToken :=
                { alg := JwtAlg.hs256,
                  claims := { userId := some u.id, email := u.email,
                              exp := some (now + 24 * 3600), iat := some now },
                  sigKey := secret },
              refreshToken := generateRefreshToken entropy,
              tokenType := "Bearer" }, ?_, rfl, hfresh⟩
    simp [AuthService.RefreshToken, hfind, generateToken, hsec]
  · intro v hv hid
    rw [hdb2] at hv
    rcases mem_UpdateUser hv with ⟨w, hw, hveq⟩
    subst hveq
    by_cases hwid : w.id = u.id
    · simp [if_pos hwid]
    · rw [if_neg hwid] at hid ⊢
      exact absurd hid hwid
  · rw [hdb2]
    have hnone := refreshToken_lookup_after_rotate db u
        { u with refreshToken := generateRefreshToken entropy } T hfresh rfl huniq
    simp [AuthService.RefreshToken, hnone]

/-- Claim C1 witness: exchange of the sample store's refresh token
"reftok" under secret "s", then a second exchange with the same token. -/
theorem refreshToken_rotation_single_use_witness :
    (∃ resp, (AuthService.RefreshToken sampleDb "reftok" sampleEntropy "s" 0).1 = .ok resp ∧
       resp.refreshToken = generateRefreshToken sampleEntropy ∧ resp.refreshToken ≠ "reftok") ∧
    (∀ v ∈ (AuthService.RefreshToken sampleDb "reftok" sampleEntropy "s" 0).2,
       v.id = sampleUser.id → v.refreshToken = generateRefreshToken sampleEntropy) ∧
    (AuthService.RefreshToken (AuthService.RefreshToken sampleDb "reftok" sampleEntropy "s" 0).2
        "reftok" sampleEntropy2 "s" 1).1 = .error .invalidRefreshToken :=
  refreshToken_rotation_single_use sampleDb "reftok" sampleEntropy sampleEntropy2
    "s" "s" 0 1 sampleUser (by decide) (by decide) (by decide) (by decide)

/-- Claim C10: with an unconfigured JWT secret, `Register` persists the
new user row and then fails while issuing the access token; the row is not
rolled back, so a second `Register` with the same email fails with
`ErrEmailAlreadyExists` although the first call never returned tokens. -/
theorem register_not_atomic_on_token_failure
    (db : List User) (nm email pw : String) (salt : Nat) (entropy : List Nat) (now : Int)
    (nm2 pw2 : String) (salt2 : Nat) (entropy2 : List Nat) (secret2 : String) (now2 : Int)
    (habsent : repositories.GetUserByEmail db email = none) :
    (AuthService.Register db nm email pw salt entropy "" now).1
      = .error (.internalError
          "failed to generate access token: JWT secret not configured") ∧
    (∃ v, repositories.GetUserByEmail
        (AuthService.Register db nm email pw salt entropy "" now).2 email = some v) ∧
    (AuthService.Register (AuthService.Register db nm email pw salt entropy "" now).2
        nm2 email pw2 salt2 entropy2 secret2 now2).1 = .error .emailAlreadyExists := by
  have habsent' : db.find? (fun v => v.email == email) = none := habsent
  have hmsg : "failed to generate access token: " ++ "JWT secret not configured"
      = "failed to generate access token: JWT secret not configured" := rfl
  have hdb1 : (AuthService.Register db nm email pw salt entropy "" now).2
      = db ++ [{ id := repositories.nextId db, name := nm, email := email,
                 password := hashPassword salt pw, refreshToken := "",
                 passwordResetToken := "", passwordResetExpiry := none }] := by
    simp [AuthService.Register, habsent, repositories.CreateUser, generateToken]
  have hfound : repositories.GetUserByEmail
      (AuthService.Register db nm email pw salt entropy "" now).2 email
      = some { id := repositories.nextId db, name := nm, email := email,
               password := hashPassword salt pw, refreshToken := "",
               passwordResetToken := "", passwordResetExpiry := none } := by
    rw [hdb1]
    simp only [repositories.GetUserByEmail]
    rw [find?_append_of_none habsent']
    simp [List.find?]
  refine ⟨?_, ?_, ?_⟩
  · simp [AuthService.Register, habsent, repositories.CreateUser, generateToken, hmsg]
  · exact ⟨_, hfound⟩
  · revert hfound
    generalize (AuthService.Register db nm email pw salt entropy "" now).2 = db1
    intro hfound1
    simp [AuthService.Register, hfound1]

/-- Claim C10 witness: registering against an empty store with an
unconfigured secret, then registering the same email again. -/
theorem register_not_atomic_on_token_failure_witness :
    (AuthService.Register [] "John Doe" "john@example.com" "SecurePass123!" 7 sampleEntropy "" 0).1
      = .error (.internalError
          "failed to generate access token: JWT secret not configured") ∧
    (∃ v, repositories.GetUserByEmail
        (AuthService.Register [] "John Doe" "john@example.com" "SecurePass123!" 7 sampleEntropy "" 0).2
        "john@example.com" = some v) ∧
    (AuthService.Register
        (AuthService.Register [] "John Doe" "john@example.com" "SecurePass123!" 7 sampleEntropy "" 0).2
        "John Doe" "john@example.com" "SecurePass123!" 7 sampleEntropy "s" 1).1
      = .error .emailAlreadyExists :=
  register_not_atomic_on_token_failure [] "John Doe" "john@example.com" "SecurePass123!" 7
    sampleEntropy 0 "John Doe" "SecurePass123!" 7 sampleEntropy "s" 1 rfl

/-- Claim C3: the forgot-password endpoint's responses for an existing and
a non-existing email share status 200 and `success = true`, but their
bodies differ (distinct messages and data), so the two cases are
externally distinguishable — evaluated on the sample store in a
production build. -/
theorem forgotPassword_masking_distinguishable :
    forgotExistingResp.status = 200 ∧ forgotMissingResp.status = 200 ∧
    forgotExistingResp.success = true ∧ forgotMissingResp.success = true ∧
    forgotExistingResp.message ≠ forgotMissingResp.message ∧
    forgotExistingResp ≠ forgotMissingResp := by
  refine ⟨rfl, rfl, rfl, rfl, by decide, by decide⟩

end BoilerplateGin
